import Mathlib

/-!
Verification of the DevOptima core against its specification.

The development shallowly embeds the decision logic of the repository:
the structured response parser (`parse_custom_response` in `app.py`),
the code extractor and the self-correction controller
(`parse_code_from_response`, `autonomous_fix_loop` in
`modules/agent_controller.py`), the local validator
(`validate_python_code` in `modules/code_parser.py`) and the generative
client (`call_groq_api` in `modules/llm_handler.py`).

External calls (the Groq completion endpoint, the CPython `ast.parse`
function, `json.loads`) are modelled as oracle parameters; all in-repo
control flow is translated statement by statement. Python string
operations are implemented over `List Char` with structural (fuel-based)
recursion so that every definition evaluates inside the kernel.
-/

namespace DevOptima

/-- Whitespace characters removed by Python `str.strip()` with no argument. -/
def pyIsSpace (c : Char) : Bool :=
  c = ' ' || c = '\t' || c = '\n' || c = '\r' || c = '\x0b' || c = '\x0c'

/-- Python `str.strip()`: remove leading and trailing whitespace. -/
def pyStrip (s : String) : String :=
  ⟨((s.data.dropWhile pyIsSpace).reverse.dropWhile pyIsSpace).reverse⟩

/-- Scanner behind Python `str.split(sep)` for a nonempty separator: at each
position, if the separator is a prefix of the rest, cut a piece; otherwise
shift one character into the current piece. The fuel argument is always
called with the length of the list plus one, so the fuel-exhausted branch is
unreachable; it exists only to make the recursion structural. -/
def splitGo (sep : List Char) : Nat → List Char → List Char → List (List Char)
  | _, [], acc => [acc.reverse]
  | 0, l, acc => [acc.reverse ++ l]
  | fuel + 1, c :: rest, acc =>
    if sep.isPrefixOf (c :: rest) then
      acc.reverse :: splitGo sep fuel (List.drop (sep.length - 1) rest) []
    else
      splitGo sep fuel rest (c :: acc)

/-- Python `str.split(sep)` (full split) for a nonempty separator. -/
def pySplit (s sep : String) : List String :=
  (splitGo sep.data (s.data.length + 1) s.data []).map (fun l => ⟨l⟩)

/-- Python membership test `sub in s` for a nonempty needle: the needle
occurs in `s` exactly when splitting on it yields more than one piece. -/
def strContains (s sub : String) : Bool := (pySplit s sub).length > 1

/-- Python `str.split(sep, 1)`: split on the first occurrence only. -/
def pySplit1 (s sep : String) : List String :=
  match pySplit s sep with
  | [] => []
  | x :: rest => if rest.isEmpty then [x] else [x, String.intercalate sep rest]

/-- Scanner behind Python `str.replace(pat, rep)` for a nonempty pattern;
fuel as in `splitGo`. -/
def replaceGo (pat rep : List Char) : Nat → List Char → List Char
  | _, [] => []
  | 0, l => l
  | fuel + 1, c :: rest =>
    if pat.isPrefixOf (c :: rest) then
      rep ++ replaceGo pat rep fuel (List.drop (pat.length - 1) rest)
    else
      c :: replaceGo pat rep fuel rest

/-- Python `str.replace(pat, rep)` for a nonempty pattern. -/
def pyReplace (s pat rep : String) : String :=
  ⟨replaceGo pat.data rep.data (s.data.length + 1) s.data⟩

/-- Python `str.startswith(pre)`. -/
def pyStartsWith (s pre : String) : Bool := pre.data.isPrefixOf s.data

/-- Values stored in the parser's result dictionary: Python strings, or the
optional decoded object held under the `simulation` key (`None` or a decoded
document of type `α`). -/
inductive PyVal (α : Type) where
  | str (s : String)
  | obj (o : Option α)
deriving DecidableEq

/-- A Python dict with string keys, as an insertion-ordered association list. -/
def PyDict (α : Type) : Type := List (String × PyVal α)

instance (α : Type) [DecidableEq α] : DecidableEq (PyDict α) := by
  unfold PyDict
  infer_instance

/-- Python `d[k]` as a total lookup: first entry with the given key. -/
def dictLookup : PyDict α → String → Option (PyVal α)
  | [], _ => none
  | (k', v) :: rest, k => if k' = k then some v else dictLookup rest k

/-- Python `d[k] = v`: replace the value at the key in place, preserving
insertion order; append a new entry when the key is absent. -/
def dictSet : PyDict α → String → PyVal α → PyDict α
  | [], k, v => [(k, v)]
  | (k', v') :: rest, k, v =>
    if k' = k then (k, v) :: rest else (k', v') :: dictSet rest k v

/-- The keys of a dict, in insertion order. -/
def keysOf (d : PyDict α) : List String := d.map Prod.fst

/-- Python list indexing `l[n]`, raising `IndexError` when out of range. -/
def pyIndex (l : List β) (n : Nat) : Except String β :=
  match l.get? n with
  | some x => .ok x
  | none => .error "IndexError: list index out of range"

/-- Python tuple unpacking `a, b = l`, raising `ValueError` unless the list
has exactly two elements. -/
def pyUnpack2 (l : List β) : Except String (β × β) :=
  match l with
  | [a, b] => .ok (a, b)
  | _ => .error "ValueError: not exactly 2 values to unpack"

/-- Python `d[k]` read of a string value, raising `KeyError` when the key is
absent (a `TypeError` marker covers the value not being a string). -/
def dictGetStr (d : PyDict α) (k : String) : Except String String :=
  match dictLookup d k with
  | some (.str s) => .ok s
  | some (.obj _) => .error "TypeError: value is not a string"
  | none => .error ("KeyError: " ++ k)

instance {ε σ : Type} [DecidableEq ε] [DecidableEq σ] : DecidableEq (Except ε σ) :=
  fun a b =>
    match a, b with
    | .ok x, .ok y =>
      match decEq x y with
      | isTrue h => isTrue (h ▸ rfl)
      | isFalse h => isFalse (fun hh => h (by injection hh))
    | .error x, .error y =>
      match decEq x y with
      | isTrue h => isTrue (h ▸ rfl)
      | isFalse h => isFalse (fun hh => h (by injection hh))
    | .ok _, .error _ => isFalse (fun hh => by injection hh)
    | .error _, .ok _ => isFalse (fun hh => by injection hh)

/-- Default dictionary built by `parse_custom_response` (app.py, lines 65-69):
all string fields empty except `security_score = "0"` and `debt_grade = "F"`;
`simulation` starts as Python `None`. -/
def initData (α : Type) : PyDict α :=
  [("description", .str ""), ("code", .str ""), ("warning", .str ""),
   ("security_score", .str "0"), ("debt_grade", .str "F"), ("analysis", .str ""),
   ("verdict", .str ""), ("simulation", .obj none)]

/-- Normalisation done first by `parse_custom_response`:
`text = response_str.replace('\r\n', '\n').strip()`. -/
def normText (response_str : String) : String :=
  pyStrip (pyReplace response_str "\r\n" "\n")

/-- Audit branch of `parse_custom_response` (app.py, lines 98-110). The
Python code runs four sequential splits inside one `try` block, assigning
`security_score`, `debt_grade`, `analysis` and `verdict` as it goes; any
exception (an out-of-range index when a later marker is missing) is caught
and overwrites only `analysis` with a fixed note, keeping the assignments
already made. Each `none` arm below is that handler applied to the data
accumulated so far. -/
def auditBranch (text : String) (d0 : PyDict α) : PyDict α :=
  match (pySplit text "---SECURITY_SCORE---").get? 1 with
  | none => dictSet d0 "analysis" (.str "Error parsing audit report.")
  | some s1 =>
    let parts := pySplit s1 "---DEBT_GRADE---"
    match parts.get? 0 with
    | none => dictSet d0 "analysis" (.str "Error parsing audit report.")
    | some p0 =>
      let d1 := dictSet d0 "security_score" (.str (pyStrip p0))
      match parts.get? 1 with
      | none => dictSet d1 "analysis" (.str "Error parsing audit report.")
      | some p1 =>
        let parts2 := pySplit p1 "---ANALYSIS---"
        match parts2.get? 0 with
        | none => dictSet d1 "analysis" (.str "Error parsing audit report.")
        | some q0 =>
          let d2 := dictSet d1 "debt_grade" (.str (pyStrip q0))
          match parts2.get? 1 with
          | none => dictSet d2 "analysis" (.str "Error parsing audit report.")
          | some q1 =>
            let parts3 := pySplit q1 "---VERDICT---"
            match parts3.get? 0 with
            | none => dictSet d2 "analysis" (.str "Error parsing audit report.")
            | some r0 =>
              let d3 := dictSet d2 "analysis" (.str (pyStrip r0))
              match parts3.get? 1 with
              | none => dictSet d3 "analysis" (.str "Error parsing audit report.")
              | some r1 => dictSet d3 "verdict" (.str (pyStrip r1))

/-- Cleaning applied to the text following the simulation-data marker
before it is handed to `json.loads` (app.py, lines 114-115):
`json_str = ...[1].strip()` then `.replace("```json", "").replace("```", "").strip()`. -/
def simPayload (raw : String) : String :=
  pyStrip (pyReplace (pyReplace (pyStrip raw) "```json" "") "```" "")

/-- Simulation branch of `parse_custom_response` (app.py, lines 112-118).
The decoder `jl` stands for `json.loads`; returning `none` models it raising.
The whole branch sits in a `try` block whose handler only logs, so on any
failure the dictionary is returned unchanged and `simulation` stays `None`. -/
def simulationBranch (jl : String → Option α) (text : String) (d : PyDict α) :
    PyDict α :=
  match (pySplit text "---SIMULATION_DATA---").get? 1 with
  | none => d
  | some raw =>
    match jl (simPayload raw) with
    | none => d
    | some v => dictSet d "simulation" (.obj (some v))

/-- Description branch of `parse_custom_response` (app.py, lines 74-84):
split once on the description marker, then, when a code marker follows,
unpack the two segments and strip the fence decoration off the code via a
read-back of `data["code"]`, exactly as the source does. -/
def descriptionBranch (text : String) (data : PyDict α) : Except String (PyDict α) :=
  let parts := pySplit1 text "---DESCRIPTION---"
  if parts.length > 1 then
    match pyIndex parts 1 with
    | .error e => .error e
    | .ok content_after_desc_tag =>
      if strContains content_after_desc_tag "---CODE---" then
        match pyUnpack2 (pySplit1 content_after_desc_tag "---CODE---") with
        | .error e => .error e
        | .ok (desc, code) =>
          let d1 := dictSet data "description" (.str (pyStrip desc))
          let d2 := dictSet d1 "code" (.str (pyStrip code))
          match dictGetStr d2 "code" with
          | .error e => .error e
          | .ok cur =>
            .ok (dictSet d2 "code"
              (.str (pyStrip (pyReplace (pyReplace cur "```python" "") "```" ""))))
      else
        .ok (dictSet data "description" (.str (pyStrip content_after_desc_tag)))
  else .ok data

/-- Warning branch of `parse_custom_response` (app.py, lines 87-95): like the
description branch but with no else-arm, so when no code marker follows the
warning marker nothing is assigned at all. -/
def warningBranch (text : String) (data : PyDict α) : Except String (PyDict α) :=
  let parts := pySplit1 text "---WARNING---"
  if parts.length > 1 then
    match pyIndex parts 1 with
    | .error e => .error e
    | .ok content_after_warn_tag =>
      if strContains content_after_warn_tag "---CODE---" then
        match pyUnpack2 (pySplit1 content_after_warn_tag "---CODE---") with
        | .error e => .error e
        | .ok (warn, code) =>
          let d1 := dictSet data "warning" (.str (pyStrip warn))
          let d2 := dictSet d1 "code" (.str (pyStrip code))
          match dictGetStr d2 "code" with
          | .error e => .error e
          | .ok cur =>
            .ok (dictSet d2 "code"
              (.str (pyStrip (pyReplace (pyReplace cur "```python" "") "```" ""))))
      else .ok data
  else .ok data

/-- Bare code-marker branch of `parse_custom_response` (app.py, lines
120-121): `_, code = text.split("---CODE---", 1)` then one strip/replace
pipeline. -/
def codeBranch (text : String) (data : PyDict α) : Except String (PyDict α) :=
  match pyUnpack2 (pySplit1 text "---CODE---") with
  | .error e => .error e
  | .ok (_, code) =>
    .ok (dictSet data "code"
      (.str (pyStrip (pyReplace (pyReplace (pyStrip code) "```python" "") "```" ""))))

/-- Embedding of `parse_custom_response` (app.py, lines 60-127), with every
Python operation that can raise returned through `Except`: list indexing,
two-element unpacking and the dictionary read-back. The cascade order and
each branch's string pipeline follow the source line by line; `jl` is the
`json.loads` oracle. -/
def parse_custom_responseE (jl : String → Option α) (response_str : String) :
    Except String (PyDict α) :=
  let data := initData α
  let text := normText response_str
  if strContains text "---DESCRIPTION---" then
    descriptionBranch text data
  else if strContains text "---WARNING---" then
    warningBranch text data
  else if strContains text "---SECURITY_SCORE---" then
    .ok (auditBranch text data)
  else if strContains text "---SIMULATION_DATA---" then
    .ok (simulationBranch jl text data)
  else if strContains text "---CODE---" then
    codeBranch text data
  else if strContains text "def " || strContains text "import " then
    .ok (dictSet data "code"
      (.str (pyStrip (pyReplace (pyReplace text "```python" "") "```" ""))))
  else
    .ok data

/-- The key set of the dictionary returned by `parse_custom_response`: the
eight keys of the literal at app.py lines 65-69. Every later assignment in
the function targets one of these keys, so the key set never changes. -/
def parsedKeys : List String :=
  ["description", "code", "warning", "security_score", "debt_grade",
   "analysis", "verdict", "simulation"]

/-- Read a string-valued field out of a parse result. -/
def lookupStr (d : PyDict α) (k : String) : Option String :=
  match dictLookup d k with
  | some (.str s) => some s
  | _ => none

/-- A `json.loads` oracle that fails on every input. -/
def jlNone : String → Option Unit := fun _ => none

/-- Possible outcomes of the CPython `ast.parse` call, modelled as an oracle:
success, a `SyntaxError` carrying `e.msg` and `e.lineno` (which CPython may
leave unset), or any other exception. -/
inductive AstParseResult where
  | ok
  | syntaxError (msg : String) (lineno : Option Nat)
  | otherError (msg : String)
deriving DecidableEq

/-- Rendering of a possibly-missing line number inside a Python f-string:
an unset `e.lineno` prints as `None`. -/
def reprLineno : Option Nat → String
  | some n => Nat.repr n
  | none => "None"

/-- Embedding of `validate_python_code` (modules/code_parser.py, lines
14-34), parameterised by the `ast.parse` oracle `astP`. Returns Python
`None` on success, the formatted syntax-error message on a `SyntaxError`,
and the catch-all message on any other exception; the logger calls are
pure logging and are not modelled. -/
def validate_python_code (astP : String → AstParseResult) (code : String) :
    Option String :=
  match astP code with
  | .ok => none
  | .syntaxError msg lineno =>
    some ("Syntax Error: " ++ msg ++ " on line " ++ reprLineno lineno)
  | .otherError msg =>
    some ("An unexpected validation error occurred: " ++ msg)

/-- Outcome of one attempt of the completion request inside
`call_groq_api`: the response content, an `APIError`, or any other
exception (all rendered as strings). -/
inductive ApiAttempt where
  | success (content : String)
  | apiError (err : String)
  | otherError (err : String)
deriving DecidableEq

/-- Observable result of `call_groq_api`: the returned string, the number of
completion requests issued, and the successive `time.sleep` durations in
seconds. -/
structure ApiResult where
  response : String
  attemptsMade : Nat
  sleeps : List Nat
deriving DecidableEq

/-- Configuration constant `MAX_RETRIES` of modules/llm_handler.py. -/
def MAX_RETRIES : Nat := 3

/-- Configuration constant `RETRY_DELAY_SECONDS` of modules/llm_handler.py. -/
def RETRY_DELAY_SECONDS : Nat := 2

/-- Retry loop of `call_groq_api` (modules/llm_handler.py, lines 54-79).
The oracle `attempts` gives the outcome of the request at each 0-based
attempt index. Fuel mirrors `range(MAX_RETRIES)`; the fuel-0 arm is the
fall-through return after the `for` loop (line 79), which is unreachable
because the final iteration always returns. -/
def call_groq_go (attempts : Nat → ApiAttempt) :
    Nat → Nat → List Nat → ApiResult
  | 0, attempt, sleeps =>
    ⟨"ERROR: An unknown error occurred after all retries.", attempt, sleeps⟩
  | remaining + 1, attempt, sleeps =>
    match attempts attempt with
    | .success content => ⟨content, attempt + 1, sleeps⟩
    | .apiError e =>
      if attempt < MAX_RETRIES - 1 then
        call_groq_go attempts remaining (attempt + 1)
          (sleeps ++ [RETRY_DELAY_SECONDS * (attempt + 1)])
      else
        ⟨"ERROR: Failed to communicate with Groq API after " ++
           Nat.repr MAX_RETRIES ++ " attempts. Last error: " ++ e,
         attempt + 1, sleeps⟩
    | .otherError e =>
      ⟨"An unexpected error occurred: " ++ e, attempt + 1, sleeps⟩

/-- Embedding of `call_groq_api` (modules/llm_handler.py, lines 41-79).
When `get_groq_client()` yields no client (missing credential) the error
string is returned before any request; otherwise the retry loop runs. -/
def call_groq_api (hasClient : Bool) (attempts : Nat → ApiAttempt) : ApiResult :=
  if hasClient then call_groq_go attempts MAX_RETRIES 0 []
  else ⟨"ERROR: GROQ_API_KEY not found.", 0, []⟩

/-- Configuration constant `MAX_ATTEMPTS` of modules/agent_controller.py. -/
def MAX_ATTEMPTS : Nat := 3

/-- Embedding of `parse_code_from_response` (modules/agent_controller.py,
lines 14-26). The `getD` defaults on the two indexing steps are unreachable:
each sits under the branch guard that makes the index in range. -/
def parse_code_from_response (response_str : String) : String :=
  let code :=
    if strContains response_str "---CODE---" then
      pyStrip ((pySplit1 response_str "---CODE---").getD 1 "")
    else if strContains response_str "```python" then
      pyStrip ((pySplit ((pySplit response_str "```python").getD 1 "") "```").getD 0 "")
    else if strContains response_str "def " || strContains response_str "import " then
      pyStrip response_str
    else
      pyStrip response_str
  pyStrip (pyReplace (pyReplace code "```python" "") "```" "")

/-- Modelled from the spec: `SELF_CORRECTION_PROMPT` is imported by
modules/agent_controller.py from modules/prompt_templates.py but is not
defined in any file under src/. The spec describes it as a
correction-instruction template into which the previous candidate code and
the diagnostic message are substituted, so the model is a template carrying
the two placeholders the controller's `.replace` calls target. -/
def SELF_CORRECTION_PROMPT : String :=
  "The previous code failed validation.\nPREVIOUS CODE:\n\x7bprevious_code\x7d\nERROR:\n\x7berror_message\x7d\nReturn the corrected code in the same format."

/-- Python truthiness of the validator's return value: `None` and the empty
string are falsy, any other string is truthy. The controller's
`if not error_msg` succeeds exactly when this is `false`. -/
def pyTruthyStrOpt : Option String → Bool
  | none => false
  | some s => s != ""

/-- Observable result of `autonomous_fix_loop`: the returned string, the raw
response of every generation call in order, and whether the `st.error`
failure banner was emitted. -/
structure LoopResult where
  result : String
  responses : List String
  errorBanner : Bool
deriving DecidableEq

/-- Loop body of `autonomous_fix_loop` (modules/agent_controller.py, lines
44-79), parameterised by the generation oracle `gen` (attempt number,
current prompt, user code, model name) and the `ast.parse` oracle `astP`
used by the validator. Fuel mirrors `range(1, MAX_ATTEMPTS + 1)`; the
fuel-0 arm is the code after the `for` loop: emit the `st.error` banner and
return `last_response`. The `st.toast` calls are not modelled. -/
def fix_loop_go (gen : Nat → String → String → String → String)
    (astP : String → AstParseResult) (model_name : String) :
    Nat → Nat → String → String → String → LoopResult
  | 0, _, _, _, last_response => ⟨last_response, [], true⟩
  | remaining + 1, attempt, current_prompt, user_code, _ =>
    let response := gen attempt current_prompt user_code model_name
    let generated_code := parse_code_from_response response
    let error_msg := validate_python_code astP generated_code
    if pyTruthyStrOpt error_msg = false then
      ⟨response, [response], false⟩
    else
      let next_prompt :=
        pyReplace (pyReplace SELF_CORRECTION_PROMPT "\x7bprevious_code\x7d" generated_code)
          "\x7berror_message\x7d" (error_msg.getD "")
      let r := fix_loop_go gen astP model_name remaining (attempt + 1) next_prompt "" response
      ⟨r.result, response :: r.responses, r.errorBanner⟩

/-- Embedding of `autonomous_fix_loop` (modules/agent_controller.py, lines
28-79): run the loop body starting at attempt 1 with the initial prompt and
user code, `last_response` initially the empty string. -/
def autonomous_fix_loop (gen : Nat → String → String → String → String)
    (astP : String → AstParseResult)
    (initial_prompt user_code model_name : String) : LoopResult :=
  fix_loop_go gen astP model_name MAX_ATTEMPTS 1 initial_prompt user_code ""

/-- The controller's per-attempt verdict, read off the source's
`if not error_msg` test: `true` when the validator rejected the code
extracted from the given raw response (a truthy error message), `false`
when the attempt is accepted. -/
def rejects (astP : String → AstParseResult) (response : String) : Bool :=
  pyTruthyStrOpt (validate_python_code astP (parse_code_from_response response))

/-- Generation oracle that always produces a malformed candidate. -/
def genBad : Nat → String → String → String → String := fun _ _ _ _ => "def f("

/-- An `ast.parse` oracle that reports a syntax error on every input. -/
def astBad : String → AstParseResult := fun _ => .syntaxError "invalid syntax" (some 1)

/-- Generation oracle that produces a malformed candidate on attempt 1 and a
well-formed one afterwards. -/
def genOk2 : Nat → String → String → String → String :=
  fun attempt _ _ _ => if attempt = 1 then "def f(" else "x = 1"

/-- An `ast.parse` oracle that accepts exactly the text `x = 1`. -/
def astOk2 : String → AstParseResult :=
  fun s => if s = "x = 1" then .ok else .syntaxError "invalid syntax" (some 1)

/-- An `ast.parse` oracle matching CPython on the two Scenario C inputs:
it accepts the well-formed two-line function and reports a `SyntaxError`
at line 1 on everything else. -/
def astScen : String → AstParseResult :=
  fun s => if s = "def f():\n    return 1" then .ok
    else .syntaxError "invalid syntax" (some 1)

/-- Completion oracle for which every attempt raises an `APIError`. -/
def attemptsBad : Nat → ApiAttempt := fun i => .apiError ("boom" ++ Nat.repr i)

/-- The error descriptions produced by `attemptsBad`. -/
def esBad : Nat → String := fun i => "boom" ++ Nat.repr i

/-! Helper lemmas about the dict and list primitives. -/

theorem dictLookup_dictSet_self (k : String) (v : PyVal α) :
    ∀ d : PyDict α, dictLookup (dictSet d k v) k = some v := by
  intro d
  induction d with
  | nil => simp [dictSet, dictLookup]
  | cons kv rest ih =>
    obtain ⟨k', v'⟩ := kv
    by_cases h : k' = k
    · simp [dictSet, h, dictLookup]
    · simp [dictSet, h, dictLookup, ih]

theorem keysOf_dictSet_of_mem (k : String) (v : PyVal α) :
    ∀ d : PyDict α, k ∈ keysOf d → keysOf (dictSet d k v) = keysOf d := by
  intro d
  induction d with
  | nil => simp [keysOf]
  | cons kv rest ih =>
    obtain ⟨k', v'⟩ := kv
    intro hmem
    by_cases h : k' = k
    · simp [dictSet, h, keysOf]
    · have hk : k ∈ keysOf rest := by
        rcases (by simpa [keysOf] using hmem) with h1 | h1
        · exact absurd h1.symm h
        · simpa [keysOf] using h1
      simp [dictSet, h, keysOf]
      simpa [keysOf] using ih hk

theorem keysOf_initData (α : Type) : keysOf (initData α) = parsedKeys := rfl

theorem keysOf_dictSet_parsed (k : String) (v : PyVal α) (d : PyDict α)
    (hd : keysOf d = parsedKeys) (hk : k ∈ parsedKeys) :
    keysOf (dictSet d k v) = parsedKeys := by
  rw [keysOf_dictSet_of_mem k v d (by rw [hd]; exact hk), hd]

theorem get?_eq_some_getD (l : List β) (n : Nat) (dflt : β) (h : n < l.length) :
    l.get? n = some (l.getD n dflt) := by
  simp [List.getD_eq_getElem?_getD, List.getElem?_eq_getElem h]

theorem pyIndex_ok (l : List β) (n : Nat) (h : n < l.length) :
    ∃ x, pyIndex l n = .ok x := by
  refine ⟨l[n], ?_⟩
  simp [pyIndex, List.getElem?_eq_getElem h]

theorem pySplit1_of_contains (s sep : String) (h : strContains s sep = true) :
    ∃ a b, pySplit1 s sep = [a, b] := by
  have hlen : (pySplit s sep).length > 1 := by
    simpa [strContains] using h
  cases hx : pySplit s sep with
  | nil => rw [hx] at hlen; simp at hlen
  | cons x rest =>
    cases rest with
    | nil => rw [hx] at hlen; simp at hlen
    | cons y t =>
      exact ⟨x, String.intercalate sep (y :: t), by simp [pySplit1, hx]⟩

theorem string_append_ne_empty (s t : String) (h : s.data ≠ []) : s ++ t ≠ "" := by
  intro hh
  have hd : (s ++ t).data = [] := by rw [hh]
  rw [String.data_append] at hd
  exact h (List.append_eq_nil.mp hd).1

theorem pyStartsWith_append (p t : String) : pyStartsWith (p ++ t) p = true := by
  simp [pyStartsWith, String.data_append]

/-! Branch lemmas: each format detector of the parser returns a dictionary
(never an error), and only ever assigns to the eight fixed keys. -/

theorem descriptionBranch_ok (text : String) (data : PyDict α)
    (hd : keysOf data = parsedKeys) :
    ∃ d, descriptionBranch text data = .ok d ∧ keysOf d = parsedKeys := by
  simp only [descriptionBranch]
  by_cases hlen : (pySplit1 text "---DESCRIPTION---").length > 1
  · obtain ⟨c, hc⟩ := pyIndex_ok (pySplit1 text "---DESCRIPTION---") 1 hlen
    simp only [if_pos hlen, hc]
    by_cases hcode : strContains c "---CODE---" = true
    · obtain ⟨a, b, hab⟩ := pySplit1_of_contains c "---CODE---" hcode
      simp only [if_pos hcode, hab, pyUnpack2, dictGetStr, dictLookup_dictSet_self]
      refine ⟨_, rfl, ?_⟩
      exact keysOf_dictSet_parsed _ _ _
        (keysOf_dictSet_parsed _ _ _
          (keysOf_dictSet_parsed _ _ _ hd (by decide)) (by decide)) (by decide)
    · simp only [if_neg hcode]
      exact ⟨_, rfl, keysOf_dictSet_parsed _ _ _ hd (by decide)⟩
  · simp only [if_neg hlen]
    exact ⟨data, rfl, hd⟩

theorem warningBranch_ok (text : String) (data : PyDict α)
    (hd : keysOf data = parsedKeys) :
    ∃ d, warningBranch text data = .ok d ∧ keysOf d = parsedKeys := by
  simp only [warningBranch]
  by_cases hlen : (pySplit1 text "---WARNING---").length > 1
  · obtain ⟨c, hc⟩ := pyIndex_ok (pySplit1 text "---WARNING---") 1 hlen
    simp only [if_pos hlen, hc]
    by_cases hcode : strContains c "---CODE---" = true
    · obtain ⟨a, b, hab⟩ := pySplit1_of_contains c "---CODE---" hcode
      simp only [if_pos hcode, hab, pyUnpack2, dictGetStr, dictLookup_dictSet_self]
      refine ⟨_, rfl, ?_⟩
      exact keysOf_dictSet_parsed _ _ _
        (keysOf_dictSet_parsed _ _ _
          (keysOf_dictSet_parsed _ _ _ hd (by decide)) (by decide)) (by decide)
    · simp only [if_neg hcode]
      exact ⟨data, rfl, hd⟩
  · simp only [if_neg hlen]
    exact ⟨data, rfl, hd⟩

theorem auditBranch_keys (text : String) (d0 : PyDict α)
    (hd : keysOf d0 = parsedKeys) :
    keysOf (auditBranch text d0) = parsedKeys := by
  simp only [auditBranch]
  repeat' split
  all_goals
    repeat first
      | exact hd
      | decide
      | apply keysOf_dictSet_parsed

theorem simulationBranch_keys (jl : String → Option α) (text : String)
    (d : PyDict α) (hd : keysOf d = parsedKeys) :
    keysOf (simulationBranch jl text d) = parsedKeys := by
  simp only [simulationBranch]
  repeat' split
  all_goals
    repeat first
      | exact hd
      | decide
      | apply keysOf_dictSet_parsed

theorem codeBranch_ok (text : String) (data : PyDict α)
    (hcode : strContains text "---CODE---" = true)
    (hd : keysOf data = parsedKeys) :
    ∃ d, codeBranch text data = .ok d ∧ keysOf d = parsedKeys := by
  obtain ⟨a, b, hab⟩ := pySplit1_of_contains text "---CODE---" hcode
  simp only [codeBranch, hab, pyUnpack2]
  exact ⟨_, rfl, keysOf_dictSet_parsed _ _ _ hd (by decide)⟩

/-- Master lemma: the parser always returns a dictionary whose key set is
exactly the eight keys of the initial literal, whatever the input text and
whatever the `json.loads` oracle does. -/
theorem parse_custom_responseE_ok (α : Type) (jl : String → Option α) (s : String) :
    ∃ d, parse_custom_responseE jl s = .ok d ∧ keysOf d = parsedKeys := by
  simp only [parse_custom_responseE]
  by_cases h1 : strContains (normText s) "---DESCRIPTION---" = true
  · simp only [if_pos h1]
    exact descriptionBranch_ok _ _ (keysOf_initData α)
  · simp only [if_neg h1]
    by_cases h2 : strContains (normText s) "---WARNING---" = true
    · simp only [if_pos h2]
      exact warningBranch_ok _ _ (keysOf_initData α)
    · simp only [if_neg h2]
      by_cases h3 : strContains (normText s) "---SECURITY_SCORE---" = true
      · simp only [if_pos h3]
        exact ⟨_, rfl, auditBranch_keys _ _ (keysOf_initData α)⟩
      · simp only [if_neg h3]
        by_cases h4 : strContains (normText s) "---SIMULATION_DATA---" = true
        · simp only [if_pos h4]
          exact ⟨_, rfl, simulationBranch_keys _ _ _ (keysOf_initData α)⟩
        · simp only [if_neg h4]
          by_cases h5 : strContains (normText s) "---CODE---" = true
          · simp only [if_pos h5]
            exact codeBranch_ok _ _ h5 (keysOf_initData α)
          · simp only [if_neg h5]
            by_cases h6 : (strContains (normText s) "def " ||
                strContains (normText s) "import ") = true
            · simp only [if_pos h6]
              exact ⟨_, rfl, keysOf_dictSet_parsed _ _ _ (keysOf_initData α) (by decide)⟩
            · simp only [if_neg h6]
              exact ⟨_, rfl, keysOf_initData α⟩

theorem getLastD_cons' (a dflt : β) (l : List β) :
    (a :: l).getLastD dflt = l.getLastD a := by
  cases l <;> simp [List.getLastD]

/-- Master characterisation of the controller loop body, by induction on the
remaining attempt budget: the number of generation calls never exceeds the
budget; when the failure banner is emitted, the budget was fully used, every
attempt was rejected and the returned string is the last raw response; when
it is not, the responses end with an accepted one, the earlier ones were all
rejected and the accepted response is returned. -/
theorem fix_loop_go_spec (gen : Nat → String → String → String → String)
    (astP : String → AstParseResult) (m : String) :
    ∀ remaining attempt p u last,
      ((fix_loop_go gen astP m remaining attempt p u last).responses.length ≤ remaining) ∧
      ((fix_loop_go gen astP m remaining attempt p u last).errorBanner = true →
        (fix_loop_go gen astP m remaining attempt p u last).responses.length = remaining ∧
        (fix_loop_go gen astP m remaining attempt p u last).result =
          (fix_loop_go gen astP m remaining attempt p u last).responses.getLastD last ∧
        ∀ x ∈ (fix_loop_go gen astP m remaining attempt p u last).responses,
          rejects astP x = true) ∧
      ((fix_loop_go gen astP m remaining attempt p u last).errorBanner = false →
        ∃ pre resp,
          (fix_loop_go gen astP m remaining attempt p u last).responses = pre ++ [resp] ∧
          (fix_loop_go gen astP m remaining attempt p u last).result = resp ∧
          rejects astP resp = false ∧
          ∀ x ∈ pre, rejects astP x = true) := by
  intro remaining
  induction remaining with
  | zero =>
    intro attempt p u last
    refine ⟨by simp [fix_loop_go], fun _ => by simp [fix_loop_go], fun hfalse => ?_⟩
    simp [fix_loop_go] at hfalse
  | succ r ih =>
    intro attempt p u last
    simp only [fix_loop_go]
    by_cases hacc :
        pyTruthyStrOpt (validate_python_code astP
          (parse_code_from_response (gen attempt p u m))) = false
    · simp only [if_pos hacc]
      refine ⟨by simp, fun hban => by simp at hban, fun _ => ?_⟩
      exact ⟨[], gen attempt p u m, by simp, rfl, hacc, by simp⟩
    · simp only [if_neg hacc]
      have hrej : rejects astP (gen attempt p u m) = true := by
        simpa [rejects] using Bool.not_eq_false _ |>.mp hacc
      obtain ⟨ihlen, ihban, ihok⟩ :=
        ih (attempt + 1)
          (pyReplace
            (pyReplace SELF_CORRECTION_PROMPT "\x7bprevious_code\x7d"
              (parse_code_from_response (gen attempt p u m)))
            "\x7berror_message\x7d"
            ((validate_python_code astP (parse_code_from_response (gen attempt p u m))).getD ""))
          "" (gen attempt p u m)
      refine ⟨by simpa using Nat.succ_le_succ ihlen, fun hban => ?_, fun hbanf => ?_⟩
      · obtain ⟨hl, hres, hall⟩ := ihban hban
        refine ⟨by simpa using hl, ?_, ?_⟩
        · rw [getLastD_cons']
          exact hres
        · intro x hx
          rcases List.mem_cons.mp hx with hx | hx
          · rw [hx]; exact hrej
          · exact hall x hx
      · obtain ⟨pre, resp, hsplit, hres, hok, hall⟩ := ihok hbanf
        refine ⟨gen attempt p u m :: pre, resp, by simp [hsplit], hres, hok, ?_⟩
        intro x hx
        rcases List.mem_cons.mp hx with hx | hx
        · rw [hx]; exact hrej
        · exact hall x hx

/-- The retry loop of the client never makes more requests than the attempt
index it starts at plus its remaining budget. -/
theorem call_groq_go_bound (attempts : Nat → ApiAttempt) :
    ∀ remaining attempt sleeps,
      (call_groq_go attempts remaining attempt sleeps).attemptsMade ≤
        attempt + remaining := by
  intro remaining
  induction remaining with
  | zero => intro attempt sleeps; simp [call_groq_go]
  | succ r ih =>
    intro attempt sleeps
    simp only [call_groq_go]
    cases h : attempts attempt with
    | success c =>
      show attempt + 1 ≤ attempt + (r + 1)
      omega
    | apiError e =>
      by_cases hlt : attempt < MAX_RETRIES - 1
      · simp only [if_pos hlt]
        calc (call_groq_go attempts r (attempt + 1) _).attemptsMade
            ≤ attempt + 1 + r := ih (attempt + 1) _
          _ = attempt + (r + 1) := by omega
      · simp only [if_neg hlt]
        show attempt + 1 ≤ attempt + (r + 1)
        omega
    | otherError e =>
      show attempt + 1 ≤ attempt + (r + 1)
      omega

theorem data_append_ne (a b : String) (h : a.data ≠ []) : (a ++ b).data ≠ [] := by
  rw [String.data_append]
  intro hc
  exact h (List.append_eq_nil.mp hc).1

theorem ne_empty_of_data (s : String) (h : s.data ≠ []) : s ≠ "" := by
  intro hh
  rw [hh] at h
  exact h rfl

/-! The claims. -/

/-- C2: for every text input to the structured response parser, including
the empty string, arbitrary garbage, and text containing every marker token
with empty bodies, parsing never raises — every Python operation that can
raise is threaded through `Except`, and the result is always `ok`; in the
worst case (here: the empty string) it returns the all-default dictionary. -/
theorem parse_custom_response_never_raises (α : Type) (jl : String → Option α)
    (s : String) :
    (∃ d, parse_custom_responseE jl s = .ok d) ∧
    parse_custom_responseE jl "" = .ok (initData α) := by
  refine ⟨?_, rfl⟩
  obtain ⟨d, hd, _⟩ := parse_custom_responseE_ok α jl s
  exact ⟨d, hd⟩

/-- C3, counterexample: the dictionary returned by the parser has no
`treeData` key (in either spelling) even though the claim lists `treeData`
among the always-present keys; at the concrete input `""` the parser returns
the initial dictionary, whose key set omits it. Tree data is produced by the
separate `generate_tree_data` function in modules/diagram_gen.py and never
merged into the parser's result. -/
theorem parse_keys_no_treeData :
    parse_custom_responseE jlNone "" = .ok (initData Unit) ∧
    "treeData" ∉ keysOf (initData Unit) ∧ "tree_data" ∉ keysOf (initData Unit) := by
  decide

/-- C3, amended: for every text input, the mapping returned by the
structured response parser contains exactly the eight documented keys
`description`, `code`, `warning`, `security_score`, `debt_grade`,
`analysis`, `verdict` and `simulation`, with defaulted values when absent
from the input; none of these is ever missing. A `treeData` key is never
present: tree data is handled by a separate component, not the parser. -/
theorem parse_keys_invariant (α : Type) (jl : String → Option α) (s : String)
    (d : PyDict α) (h : parse_custom_responseE jl s = .ok d) :
    keysOf d = parsedKeys ∧ "treeData" ∉ keysOf d := by
  obtain ⟨d2, hd2, hk⟩ := parse_custom_responseE_ok α jl s
  rw [h] at hd2
  injection hd2 with hdd
  subst hdd
  refine ⟨hk, ?_⟩
  rw [hk]
  decide

theorem parse_keys_invariant_witness :
    parse_custom_responseE jlNone "" = .ok (initData Unit) ∧
    (keysOf (initData Unit) = parsedKeys ∧ "treeData" ∉ keysOf (initData Unit)) :=
  ⟨by decide, parse_keys_invariant Unit jlNone "" (initData Unit) (by decide)⟩

/-- C8: whenever the simulation-data marker is the first recognized marker
in the normalised text and the embedded document fails to decode (the
`json.loads` oracle raises on the cleaned payload), the parser returns the
untouched default dictionary, whose `simulation` entry is Python `None` —
never a half-populated structure, and never an error. -/
theorem parse_simulation_decode_failure (α : Type) (jl : String → Option α)
    (s : String)
    (h1 : strContains (normText s) "---DESCRIPTION---" = false)
    (h2 : strContains (normText s) "---WARNING---" = false)
    (h3 : strContains (normText s) "---SECURITY_SCORE---" = false)
    (h4 : strContains (normText s) "---SIMULATION_DATA---" = true)
    (h5 : jl (simPayload
      ((pySplit (normText s) "---SIMULATION_DATA---").getD 1 "")) = none) :
    parse_custom_responseE jl s = .ok (initData α) ∧
    dictLookup (initData α) "simulation" = some (.obj none) := by
  refine ⟨?_, rfl⟩
  have h1' : ¬ strContains (normText s) "---DESCRIPTION---" = true := by simp [h1]
  have h2' : ¬ strContains (normText s) "---WARNING---" = true := by simp [h2]
  have h3' : ¬ strContains (normText s) "---SECURITY_SCORE---" = true := by simp [h3]
  have hget : (pySplit (normText s) "---SIMULATION_DATA---").get? 1 =
      some ((pySplit (normText s) "---SIMULATION_DATA---").getD 1 "") :=
    get?_eq_some_getD _ 1 "" (by simpa [strContains] using h4)
  simp only [parse_custom_responseE, if_neg h1', if_neg h2', if_neg h3', if_pos h4,
    simulationBranch, hget, h5]

theorem parse_simulation_decode_failure_witness :
    (strContains (normText "---SIMULATION_DATA---\nnot json") "---DESCRIPTION---" = false ∧
     strContains (normText "---SIMULATION_DATA---\nnot json") "---WARNING---" = false ∧
     strContains (normText "---SIMULATION_DATA---\nnot json") "---SECURITY_SCORE---" = false ∧
     strContains (normText "---SIMULATION_DATA---\nnot json") "---SIMULATION_DATA---" = true) ∧
    (parse_custom_responseE jlNone "---SIMULATION_DATA---\nnot json" = .ok (initData Unit) ∧
     dictLookup (initData Unit) "simulation" = some (.obj none)) :=
  ⟨⟨by decide, by decide, by decide, by decide⟩,
   parse_simulation_decode_failure Unit jlNone "---SIMULATION_DATA---\nnot json"
     (by decide) (by decide) (by decide) (by decide) rfl⟩

/-- C9: parsing the Scenario A raw text yields `description = "fix applied"`
and `code = "print(1)"`, with the fenced-code decoration stripped from the
code segment. -/
theorem parse_scenario_a :
    (parse_custom_responseE jlNone
        "---DESCRIPTION---\nfix applied\n---CODE---\n```python\nprint(1)\n```").map
      (fun d => (lookupStr d "description", lookupStr d "code")) =
    .ok (some "fix applied", some "print(1)") := by
  decide

/-- C1: for every initial instruction, source text and model name (and every
behaviour of the generation and `ast.parse` oracles), the self-correction
controller performs at most `MAX_ATTEMPTS = 3` generation calls and
terminates (it is a total function); and when the validator rejects the
extracted candidate on every one of the attempts, it returns the last raw
response after exactly 3 generation calls — never a 4th. -/
theorem autonomous_fix_loop_attempt_budget
    (gen : Nat → String → String → String → String)
    (astP : String → AstParseResult) (p u m : String)
    (hrej : ∀ x ∈ (autonomous_fix_loop gen astP p u m).responses,
      rejects astP x = true) :
    ((autonomous_fix_loop gen astP p u m).responses.length = MAX_ATTEMPTS ∧
     (autonomous_fix_loop gen astP p u m).result =
       (autonomous_fix_loop gen astP p u m).responses.getLastD "") ∧
    ∀ (gen2 : Nat → String → String → String → String)
      (astP2 : String → AstParseResult) (p2 u2 m2 : String),
      (autonomous_fix_loop gen2 astP2 p2 u2 m2).responses.length ≤ MAX_ATTEMPTS := by
  have heq : autonomous_fix_loop gen astP p u m =
      fix_loop_go gen astP m MAX_ATTEMPTS 1 p u "" := rfl
  obtain ⟨hlen, hban, hok⟩ := fix_loop_go_spec gen astP m MAX_ATTEMPTS 1 p u ""
  rw [heq] at hrej
  rw [heq]
  refine ⟨?_, ?_⟩
  · cases hb : (fix_loop_go gen astP m MAX_ATTEMPTS 1 p u "").errorBanner with
    | false =>
      exfalso
      obtain ⟨pre, resp, hsplit, _, hacc, _⟩ := hok hb
      have := hrej resp (by rw [hsplit]; simp)
      rw [this] at hacc
      exact Bool.true_eq_false.mp hacc
    | true =>
      obtain ⟨hl, hres, _⟩ := hban hb
      exact ⟨hl, hres⟩
  · intro gen2 astP2 p2 u2 m2
    exact (fix_loop_go_spec gen2 astP2 m2 MAX_ATTEMPTS 1 p2 u2 "").1

theorem autonomous_fix_loop_attempt_budget_witness :
    (∀ x ∈ (autonomous_fix_loop genBad astBad "p" "u" "m").responses,
      rejects astBad x = true) ∧
    ((autonomous_fix_loop genBad astBad "p" "u" "m").responses.length = MAX_ATTEMPTS ∧
     (autonomous_fix_loop genBad astBad "p" "u" "m").result =
       (autonomous_fix_loop genBad astBad "p" "u" "m").responses.getLastD "") :=
  ⟨by decide,
   (autonomous_fix_loop_attempt_budget genBad astBad "p" "u" "m" (by decide)).1⟩

/-- C4: when the attempt budget is exhausted (the failure banner is
emitted), the controller returns the last raw response, after exactly
`MAX_ATTEMPTS` generation calls, all of which were rejected by the
validator; and the banner is the distinct exhausted-state signal — on every
run that ends without it, the returned response is one the validator
accepted, so a caller watching the banner can tell this defined terminal
failure state from a successful result. -/
theorem autonomous_fix_loop_exhausted_signal
    (gen : Nat → String → String → String → String)
    (astP : String → AstParseResult) (p u m : String)
    (hex : (autonomous_fix_loop gen astP p u m).errorBanner = true) :
    ((autonomous_fix_loop gen astP p u m).result =
       (autonomous_fix_loop gen astP p u m).responses.getLastD "" ∧
     (autonomous_fix_loop gen astP p u m).responses.length = MAX_ATTEMPTS ∧
     ∀ x ∈ (autonomous_fix_loop gen astP p u m).responses,
       rejects astP x = true) ∧
    ∀ (gen2 : Nat → String → String → String → String)
      (astP2 : String → AstParseResult) (p2 u2 m2 : String),
      (autonomous_fix_loop gen2 astP2 p2 u2 m2).errorBanner = false →
      rejects astP2 (autonomous_fix_loop gen2 astP2 p2 u2 m2).result = false := by
  have heq : autonomous_fix_loop gen astP p u m =
      fix_loop_go gen astP m MAX_ATTEMPTS 1 p u "" := rfl
  obtain ⟨_, hban, _⟩ := fix_loop_go_spec gen astP m MAX_ATTEMPTS 1 p u ""
  rw [heq] at hex
  rw [heq]
  obtain ⟨hl, hres, hall⟩ := hban hex
  refine ⟨⟨hres, hl, hall⟩, ?_⟩
  intro gen2 astP2 p2 u2 m2 hb2
  have heq2 : autonomous_fix_loop gen2 astP2 p2 u2 m2 =
      fix_loop_go gen2 astP2 m2 MAX_ATTEMPTS 1 p2 u2 "" := rfl
  rw [heq2] at hb2
  rw [heq2]
  obtain ⟨_, _, hok2⟩ := fix_loop_go_spec gen2 astP2 m2 MAX_ATTEMPTS 1 p2 u2 ""
  obtain ⟨pre, resp, _, hres2, hacc2, _⟩ := hok2 hb2
  rw [hres2]
  exact hacc2

theorem autonomous_fix_loop_exhausted_signal_witness :
    (autonomous_fix_loop genBad astBad "p" "u" "m").errorBanner = true ∧
    ((autonomous_fix_loop genBad astBad "p" "u" "m").result =
       (autonomous_fix_loop genBad astBad "p" "u" "m").responses.getLastD "" ∧
     (autonomous_fix_loop genBad astBad "p" "u" "m").responses.length = MAX_ATTEMPTS ∧
     ∀ x ∈ (autonomous_fix_loop genBad astBad "p" "u" "m").responses,
       rejects astBad x = true) :=
  ⟨by decide,
   (autonomous_fix_loop_exhausted_signal genBad astBad "p" "u" "m" (by decide)).1⟩

/-- C5: in every run of the self-correction controller that ends without the
failure banner — the function's only success exit — the response list is some
rejected prefix followed by one final response whose extracted candidate the
validator accepted; writing `k` for the number of generation calls
(`pre.length + 1 ≤ MAX_ATTEMPTS`), the validator returned Valid on attempt
`k`, the controller returned the raw response of attempt `k` immediately,
and no generation call occurred for attempt `k + 1` (the response list ends
at attempt `k`). -/
theorem autonomous_fix_loop_success_exit
    (gen : Nat → String → String → String → String)
    (astP : String → AstParseResult) (p u m : String)
    (hsucc : (autonomous_fix_loop gen astP p u m).errorBanner = false) :
    ∃ pre resp,
      (autonomous_fix_loop gen astP p u m).responses = pre ++ [resp] ∧
      (autonomous_fix_loop gen astP p u m).result = resp ∧
      rejects astP resp = false ∧
      (∀ x ∈ pre, rejects astP x = true) ∧
      pre.length + 1 ≤ MAX_ATTEMPTS := by
  have heq : autonomous_fix_loop gen astP p u m =
      fix_loop_go gen astP m MAX_ATTEMPTS 1 p u "" := rfl
  rw [heq] at hsucc
  rw [heq]
  obtain ⟨hlen, _, hok⟩ := fix_loop_go_spec gen astP m MAX_ATTEMPTS 1 p u ""
  obtain ⟨pre, resp, hsplit, hres, hacc, hall⟩ := hok hsucc
  refine ⟨pre, resp, hsplit, hres, hacc, hall, ?_⟩
  rw [hsplit] at hlen
  simpa using hlen

theorem autonomous_fix_loop_success_exit_witness :
    (autonomous_fix_loop genOk2 astOk2 "p" "u" "m").errorBanner = false ∧
    ∃ pre resp,
      (autonomous_fix_loop genOk2 astOk2 "p" "u" "m").responses = pre ++ [resp] ∧
      (autonomous_fix_loop genOk2 astOk2 "p" "u" "m").result = resp ∧
      rejects astOk2 resp = false ∧
      (∀ x ∈ pre, rejects astOk2 x = true) ∧
      pre.length + 1 ≤ MAX_ATTEMPTS :=
  ⟨by decide, autonomous_fix_loop_success_exit genOk2 astOk2 "p" "u" "m" (by decide)⟩

/-- C10: for every response string with no code marker, no python fence and
neither of the code-indicating tokens, the controller's code extractor
still returns the entire input — whitespace-stripped and with fence tokens
removed — as the code candidate, rather than an empty default; every
unmarked response therefore reaches the validator essentially verbatim. -/
theorem parse_code_unmarked_passthrough (s : String)
    (h1 : strContains s "---CODE---" = false)
    (h2 : strContains s "```python" = false)
    (h3 : strContains s "def " = false)
    (h4 : strContains s "import " = false) :
    parse_code_from_response s =
      pyStrip (pyReplace (pyReplace (pyStrip s) "```python" "") "```" "") := by
  simp only [parse_code_from_response, h1, h2, h3, h4]
  simp

/-- C6: for every request whose client is configured, when every attempt
raises a transient service error (`APIError`), the generative client retries
up to the fixed maximum of `MAX_RETRIES = 3` attempts, sleeping
`RETRY_DELAY_SECONDS * attemptIndex` seconds between consecutive attempts
(linearly increasing backoff), and after exhausting retries returns — never
raises — a response string flagged with the `ERROR:` prefix that embeds the
last underlying error description; on any oracle behaviour at most
`MAX_RETRIES` requests are issued and the function totally returns. -/
theorem call_groq_api_retry_exhaustion (attempts : Nat → ApiAttempt)
    (es : Nat → String)
    (h : ∀ i, i < MAX_RETRIES → attempts i = .apiError (es i)) :
    call_groq_api true attempts =
      ⟨"ERROR: Failed to communicate with Groq API after " ++ Nat.repr MAX_RETRIES ++
         " attempts. Last error: " ++ es (MAX_RETRIES - 1),
       MAX_RETRIES, [RETRY_DELAY_SECONDS * 1, RETRY_DELAY_SECONDS * 2]⟩ ∧
    pyStartsWith (call_groq_api true attempts).response "ERROR:" = true ∧
    ∀ (hc : Bool) (attempts2 : Nat → ApiAttempt),
      (call_groq_api hc attempts2).attemptsMade ≤ MAX_RETRIES := by
  have h0 := h 0 (by decide)
  have h1 := h 1 (by decide)
  have h2 := h 2 (by decide)
  have hmain : call_groq_api true attempts =
      ⟨"ERROR: Failed to communicate with Groq API after " ++ Nat.repr MAX_RETRIES ++
         " attempts. Last error: " ++ es (MAX_RETRIES - 1),
       MAX_RETRIES, [RETRY_DELAY_SECONDS * 1, RETRY_DELAY_SECONDS * 2]⟩ := by
    simp [call_groq_api, call_groq_go, MAX_RETRIES, RETRY_DELAY_SECONDS, h0, h1, h2]
  refine ⟨hmain, ?_, ?_⟩
  · rw [hmain]
    show pyStartsWith
      ("ERROR: Failed to communicate with Groq API after " ++ Nat.repr MAX_RETRIES ++
        " attempts. Last error: " ++ es (MAX_RETRIES - 1)) "ERROR:" = true
    simp only [pyStartsWith, String.data_append]
    rw [ List.isPrefixOf_iff_prefix]
    exact (((by decide :
      ("ERROR:" : String).data <+:
        ("ERROR: Failed to communicate with Groq API after " : String).data).trans
      (List.prefix_append _ _)).trans (List.prefix_append _ _)).trans
      (List.prefix_append _ _)
  · intro hc attempts2
    cases hc
    · simp [call_groq_api]
    · simpa [call_groq_api, MAX_RETRIES] using call_groq_go_bound attempts2 MAX_RETRIES 0 []

theorem call_groq_api_retry_exhaustion_witness :
    (∀ i, i < MAX_RETRIES → attemptsBad i = .apiError (esBad i)) ∧
    call_groq_api true attemptsBad =
      ⟨"ERROR: Failed to communicate with Groq API after " ++ Nat.repr MAX_RETRIES ++
         " attempts. Last error: " ++ esBad (MAX_RETRIES - 1),
       MAX_RETRIES, [RETRY_DELAY_SECONDS * 1, RETRY_DELAY_SECONDS * 2]⟩ ∧
    pyStartsWith (call_groq_api true attemptsBad).response "ERROR:" = true :=
  ⟨by decide,
   (call_groq_api_retry_exhaustion attemptsBad esBad (by decide)).1,
   (call_groq_api_retry_exhaustion attemptsBad esBad (by decide)).2.1⟩

/-- C7: the local validator returns Valid (`none`) exactly when the
`ast.parse` oracle accepts the candidate text, and otherwise returns Invalid
with a non-empty message; on a syntax error the message carries the
offending line number verbatim. In particular, for any oracle behaving like
CPython on Scenario C — reporting a syntax error with some message and line
for `"def f(:"` and accepting `"def f():\n    return 1"` — the former yields
Invalid with a non-empty message containing the line number and the latter
yields Valid. -/
theorem validate_python_code_spec (astP : String → AstParseResult)
    (mbad : String) (lbad : Nat)
    (hbad : astP "def f(:" = .syntaxError mbad (some lbad))
    (hgood : astP "def f():\n    return 1" = .ok) :
    (∀ c, validate_python_code astP c = none ↔ astP c = .ok) ∧
    (∀ c msg ln, astP c = .syntaxError msg ln →
      validate_python_code astP c =
        some ("Syntax Error: " ++ msg ++ " on line " ++ reprLineno ln) ∧
      ("Syntax Error: " ++ msg ++ " on line " ++ reprLineno ln) ≠ "") ∧
    (∀ c, validate_python_code astP c = none ∨
      ∃ e, validate_python_code astP c = some e ∧ e ≠ "") ∧
    (validate_python_code astP "def f(:" =
      some ("Syntax Error: " ++ mbad ++ " on line " ++ Nat.repr lbad) ∧
     ("Syntax Error: " ++ mbad ++ " on line " ++ Nat.repr lbad) ≠ "") ∧
    validate_python_code astP "def f():\n    return 1" = none := by
  have hsyn : ∀ msg t u, ("Syntax Error: " ++ msg ++ t ++ u) ≠ "" := by
    intro msg t u
    exact ne_empty_of_data _
      (data_append_ne _ _ (data_append_ne _ _ (data_append_ne _ _ (by decide))))
  have hother : ∀ msg, ("An unexpected validation error occurred: " ++ msg) ≠ "" := by
    intro msg
    exact ne_empty_of_data _ (data_append_ne _ _ (by decide))
  refine ⟨?_, ?_, ?_, ?_, ?_⟩
  · intro c
    cases hc : astP c <;> simp [validate_python_code, hc]
  · intro c msg ln hc
    exact ⟨by simp [validate_python_code, hc], hsyn msg _ _⟩
  · intro c
    cases hc : astP c with
    | ok => exact Or.inl (by simp [validate_python_code, hc])
    | syntaxError msg ln =>
      exact Or.inr ⟨"Syntax Error: " ++ msg ++ " on line " ++ reprLineno ln,
        by simp [validate_python_code, hc], hsyn msg _ _⟩
    | otherError msg =>
      exact Or.inr ⟨"An unexpected validation error occurred: " ++ msg,
        by simp [validate_python_code, hc], hother msg⟩
  · exact ⟨by simp [validate_python_code, hbad, reprLineno], hsyn mbad _ _⟩
  · simp [validate_python_code, hgood]

theorem validate_python_code_spec_witness :
    (astScen "def f(:" = .syntaxError "invalid syntax" (some 1) ∧
     astScen "def f():\n    return 1" = .ok) ∧
    ((validate_python_code astScen "def f(:" =
        some ("Syntax Error: " ++ "invalid syntax" ++ " on line " ++ Nat.repr 1) ∧
      ("Syntax Error: " ++ "invalid syntax" ++ " on line " ++ Nat.repr 1) ≠ "") ∧
     validate_python_code astScen "def f():\n    return 1" = none) :=
  ⟨⟨by decide, by decide⟩,
   (validate_python_code_spec astScen "invalid syntax" 1 (by decide) (by decide)).2.2.2⟩

theorem parse_code_unmarked_passthrough_witness :
    (strContains "hello world" "---CODE---" = false ∧
     strContains "hello world" "```python" = false ∧
     strContains "hello world" "def " = false ∧
     strContains "hello world" "import " = false) ∧
    parse_code_from_response "hello world" =
      pyStrip (pyReplace (pyReplace (pyStrip "hello world") "```python" "") "```" "") :=
  ⟨⟨by decide, by decide, by decide, by decide⟩,
   parse_code_unmarked_passthrough "hello world"
     (by decide) (by decide) (by decide) (by decide)⟩

end DevOptima
